import Mathlib

/-!
Verification of the mine-dispatch management dashboard
(src/App.tsx, src/components/RouteOptimizer.tsx,
src/components/MaintenanceScheduler.tsx, src/components/AnalyticsDashboard.tsx).

The TypeScript code is shallowly embedded: JS numbers are modelled as exact
rationals (all arithmetic in the repository is on small integral or
decimal-fraction values, far from any binary floating-point rounding
boundary), ISO-8601 timestamps as integers (their order agrees with the
chronological order), optional fields as Option, and Math.round x as
the integer floor of x + 1/2 (JS rounds half towards positive infinity).
-/

namespace MineDispatch

/-- JS Math.round on an exact rational: floor (x + 1/2). -/
def jsRound (q : ℚ) : ℤ := ⌊q + 1/2⌋

/-- JS Math.round on a real argument (used to state the distance formula,
whose source value is Math.sqrt, exactly). -/
noncomputable def jsRoundReal (x : ℝ) : ℤ := ⌊x + 1/2⌋

/-! ## Data model (interfaces Equipment, Assignment, RoutePoint, OptimizedRoute,
MaintenanceTask, ProductionMetrics) -/

/-- Equipment.type in App.tsx. -/
inductive EquipmentType where
  | excavator | dumper | crusher | dumpyard
deriving DecidableEq, Repr

/-- Equipment.status in App.tsx. -/
inductive EquipmentStatus where
  | active | idle | maintenance
deriving DecidableEq, Repr

/-- interface Equipment in App.tsx (the superset of the per-component
Equipment interfaces; `lastMaintenance` is an ISO timestamp, embedded as ℤ). -/
structure Equipment where
  id : String
  name : String
  type : EquipmentType
  status : EquipmentStatus
  location : String
  operator : Option String := none
  capacity : Option ℚ := none
  currentLoad : Option ℚ := none
  efficiency : Option ℚ := none
  lastMaintenance : Option ℤ := none
deriving DecidableEq, Repr

/-- RoutePoint.type in RouteOptimizer.tsx. -/
inductive RPType where
  | loading | dumping | processing
deriving DecidableEq, Repr

/-- coordinates: \x7b x, y \x7d in RouteOptimizer.tsx (the sample data and UI
use integral coordinates). -/
structure Coord where
  x : ℤ
  y : ℤ
deriving DecidableEq, Repr

/-- interface RoutePoint in RouteOptimizer.tsx. -/
structure RoutePoint where
  id : String
  name : String
  type : RPType
  coordinates : Coord
  capacity : Option ℚ := none
  currentLoad : Option ℚ := none
  waitTime : Option ℚ := none
deriving DecidableEq, Repr

/-- OptimizedRoute.status in RouteOptimizer.tsx. -/
inductive RouteStatus where
  | planned | active | completed
deriving DecidableEq, Repr

/-- priority values used for routes and assignments. -/
inductive Priority where
  | high | medium | low
deriving DecidableEq, Repr

/-- interface OptimizedRoute in RouteOptimizer.tsx. -/
structure OptimizedRoute where
  id : String
  equipmentId : String
  equipmentName : String
  points : List RoutePoint
  totalDistance : ℤ
  estimatedTime : ℤ
  fuelConsumption : ℤ
  efficiency : ℤ
  status : RouteStatus
  priority : Priority
deriving DecidableEq, Repr

/-! ## Route generation (RouteOptimizer.tsx, generateOptimizedRoute and
calculateDistance) -/

/-- calculateDistance in RouteOptimizer.tsx:
Math.round(Math.sqrt(dx*dx + dy*dy) / 10).
For a natural s, floor((sqrt s + 5) / 10) = (Nat.sqrt s + 5) / 10 (no integer
lies strictly between sqrt s + 5 and its floor plus one), so the JS value
Math.round(sqrt s / 10) is computed here with the natural-number square root;
the bridge to the real formula is proved in calculateDistance_eq_real. -/
def calculateDistance (point1 point2 : Coord) : ℤ :=
  ((Nat.sqrt ((point2.x - point1.x) * (point2.x - point1.x)
    + (point2.y - point1.y) * (point2.y - point1.y)).toNat + 5) / 10 : ℕ)

/-- The remaining capacity (current.capacity || 0) - (current.currentLoad || 0)
that generateOptimizedRoute maximises over route points. -/
def remCap (p : RoutePoint) : ℚ := p.capacity.getD 0 - p.currentLoad.getD 0

/-- The callback of the Array.prototype.reduce calls in generateOptimizedRoute:
keep the current point only when its remaining capacity is strictly larger. -/
def betterPoint (best current : RoutePoint) : RoutePoint :=
  if remCap best < remCap current then current else best

/-- generateOptimizedRoute in RouteOptimizer.tsx. `now` stands for Date.now()
(only used in the generated id) and `rand` for the Math.random() draw used in
the efficiency term. Returns none when either point list is empty; otherwise
the two reduce calls (modelled as foldl over the tail, seeded with the head,
exactly Array.prototype.reduce without an initial value) pick the loading and
dumping points. -/
def generateOptimizedRoute (routePoints : List RoutePoint) (dumper : Equipment)
    (now : ℕ) (rand : ℚ) : Option OptimizedRoute :=
  let loadingPoints := routePoints.filter (fun p => p.type == RPType.loading)
  let dumpingPoints := routePoints.filter (fun p => p.type == RPType.dumping)
  match loadingPoints, dumpingPoints with
  | [], _ => none
  | _ :: _, [] => none
  | lh :: lt, dh :: dt =>
    let bestLoadingPoint := lt.foldl betterPoint lh
    let bestDumpingPoint := dt.foldl betterPoint dh
    let distance := calculateDistance bestLoadingPoint.coordinates bestDumpingPoint.coordinates
    let estimatedTime := jsRound ((distance : ℚ) / 25
      + bestLoadingPoint.waitTime.getD 0 + bestDumpingPoint.waitTime.getD 0)
    let fuelConsumption := jsRound ((distance : ℚ) * (3/10))
    let efficiency := jsRound (85 + rand * 15)
    some { id := "route-" ++ toString now ++ "-" ++ dumper.id
           equipmentId := dumper.id
           equipmentName := dumper.name
           points := [bestLoadingPoint, bestDumpingPoint]
           totalDistance := distance
           estimatedTime := estimatedTime
           fuelConsumption := fuelConsumption
           efficiency := efficiency
           status := RouteStatus.planned
           priority := Priority.medium }

/-- r is the element of l with the maximal f-value, keeping the earlier
element on a tie: everything before r is strictly smaller, everything after
is no larger. This is the specification reading of "the point maximizing
(capacity - currentLoad); on a tie the earlier point in the list is kept". -/
def IsFirstMax {α : Type} (f : α → ℚ) (l : List α) (r : α) : Prop :=
  ∃ l₁ l₂, l = l₁ ++ r :: l₂ ∧ (∀ y ∈ l₁, f y < f r) ∧ (∀ y ∈ l₂, f y ≤ f r)

theorem foldl_better_le {α : Type} (f : α → ℚ) (a : α) (t : List α) :
    f a ≤ f (t.foldl (fun best current => if f best < f current then current else best) a) := by
  induction t generalizing a with
  | nil => exact le_refl _
  | cons c t ih =>
    rw [List.foldl_cons]
    by_cases hc : f a < f c
    · rw [if_pos hc]; exact hc.le.trans (ih c)
    · rw [if_neg hc]; exact ih a

theorem foldl_isFirstMax {α : Type} (f : α → ℚ) (h : α) (t : List α) :
    IsFirstMax f (h :: t)
      (t.foldl (fun best current => if f best < f current then current else best) h) := by
  induction t generalizing h with
  | nil => exact ⟨[], [], rfl, by simp, by simp⟩
  | cons c t ih =>
    rw [List.foldl_cons]
    by_cases hc : f h < f c
    · rw [if_pos hc]
      obtain ⟨l₁, l₂, heq, hlt, hle⟩ := ih c
      refine ⟨h :: l₁, l₂, ?_, ?_, hle⟩
      · rw [List.cons_append, ← heq]
      · intro y hy
        rcases List.mem_cons.mp hy with rfl | hy
        · exact hc.trans_le (foldl_better_le f c t)
        · exact hlt y hy
    · rw [if_neg hc]
      obtain ⟨l₁, l₂, heq, hlt, hle⟩ := ih h
      cases l₁ with
      | nil =>
        rw [List.nil_append] at heq
        injection heq with h1 h2
        refine ⟨[], c :: l₂, ?_, by simp, ?_⟩
        · rw [List.nil_append, ← h1, h2]
        · intro y hy
          rcases List.mem_cons.mp hy with rfl | hy
          · exact h1 ▸ not_lt.mp hc
          · exact hle y hy
      | cons a l₁ =>
        rw [List.cons_append] at heq
        injection heq with h1 h2
        subst h1
        have hhr : f h <
            f (t.foldl (fun best current => if f best < f current then current else best) h) :=
          hlt h (List.mem_cons_self h l₁)
        refine ⟨h :: c :: l₁, l₂, ?_, ?_, hle⟩
        · rw [List.cons_append, List.cons_append, ← h2]
        · intro y hy
          rcases List.mem_cons.mp hy with rfl | hy
          · exact hhr
          rcases List.mem_cons.mp hy with rfl | hy
          · exact (not_lt.mp hc).trans_lt hhr
          · exact hlt y (List.mem_cons_of_mem h hy)

/-- Unfolding of generateOptimizedRoute when both point lists are non-empty
(the some-branch of the source function, with the two reduce results spelled
out as foldl over the tail). -/
theorem generateOptimizedRoute_cons_eq (rp : List RoutePoint) (dumper : Equipment)
    (now : ℕ) (rand : ℚ) (lh dh : RoutePoint) (lt dt : List RoutePoint)
    (hl : rp.filter (fun p => p.type == RPType.loading) = lh :: lt)
    (hd : rp.filter (fun p => p.type == RPType.dumping) = dh :: dt) :
    generateOptimizedRoute rp dumper now rand =
      some { id := "route-" ++ toString now ++ "-" ++ dumper.id
             equipmentId := dumper.id
             equipmentName := dumper.name
             points := [lt.foldl betterPoint lh, dt.foldl betterPoint dh]
             totalDistance := calculateDistance (lt.foldl betterPoint lh).coordinates
               (dt.foldl betterPoint dh).coordinates
             estimatedTime := jsRound ((calculateDistance (lt.foldl betterPoint lh).coordinates
               (dt.foldl betterPoint dh).coordinates : ℚ) / 25
               + (lt.foldl betterPoint lh).waitTime.getD 0
               + (dt.foldl betterPoint dh).waitTime.getD 0)
             fuelConsumption := jsRound ((calculateDistance (lt.foldl betterPoint lh).coordinates
               (dt.foldl betterPoint dh).coordinates : ℚ) * (3/10))
             efficiency := jsRound (85 + rand * 15)
             status := RouteStatus.planned
             priority := Priority.medium } := by
  unfold generateOptimizedRoute
  rw [hl, hd]

/-- C1. Route generation for a dumper: when the loading and dumping point
lists are both non-empty a route is generated and its point sequence is
exactly [L, D], where L is the first loading point attaining the maximal
remaining capacity (capacity - currentLoad) and D likewise for the dumping
points, chosen independently; when either list is empty no route is
generated. -/
theorem generateOptimizedRoute_first_max (rp : List RoutePoint) (dumper : Equipment)
    (now : ℕ) (rand : ℚ) :
    ((rp.filter (fun p => p.type == RPType.loading) = []
        ∨ rp.filter (fun p => p.type == RPType.dumping) = []) →
      generateOptimizedRoute rp dumper now rand = none)
    ∧ (rp.filter (fun p => p.type == RPType.loading) ≠ [] →
        rp.filter (fun p => p.type == RPType.dumping) ≠ [] →
        generateOptimizedRoute rp dumper now rand ≠ none)
    ∧ (∀ route, generateOptimizedRoute rp dumper now rand = some route →
        ∃ L D, route.points = [L, D]
          ∧ IsFirstMax remCap (rp.filter (fun p => p.type == RPType.loading)) L
          ∧ IsFirstMax remCap (rp.filter (fun p => p.type == RPType.dumping)) D) := by
  refine ⟨?_, ?_, ?_⟩
  · intro hemp
    cases hl : rp.filter (fun p => p.type == RPType.loading) with
    | nil => simp [generateOptimizedRoute, hl]
    | cons lh lt =>
      cases hd : rp.filter (fun p => p.type == RPType.dumping) with
      | nil => simp [generateOptimizedRoute, hl, hd]
      | cons dh dt => rw [hl, hd] at hemp; rcases hemp with h | h <;> exact absurd h (by simp)
  · intro hl' hd'
    cases hl : rp.filter (fun p => p.type == RPType.loading) with
    | nil => exact absurd hl hl'
    | cons lh lt =>
      cases hd : rp.filter (fun p => p.type == RPType.dumping) with
      | nil => exact absurd hd hd'
      | cons dh dt =>
        rw [generateOptimizedRoute_cons_eq rp dumper now rand lh dh lt dt hl hd]
        simp
  · intro route hroute
    cases hl : rp.filter (fun p => p.type == RPType.loading) with
    | nil => rw [(by simp [generateOptimizedRoute, hl] :
        generateOptimizedRoute rp dumper now rand = none)] at hroute; exact absurd hroute (by simp)
    | cons lh lt =>
      cases hd : rp.filter (fun p => p.type == RPType.dumping) with
      | nil => rw [(by simp [generateOptimizedRoute, hl, hd] :
          generateOptimizedRoute rp dumper now rand = none)] at hroute; exact absurd hroute (by simp)
      | cons dh dt =>
        rw [generateOptimizedRoute_cons_eq rp dumper now rand lh dh lt dt hl hd] at hroute
        obtain rfl := Option.some.injEq _ _ ▸ hroute
        exact ⟨lt.foldl betterPoint lh, dt.foldl betterPoint dh, rfl,
          foldl_isFirstMax remCap lh lt, foldl_isFirstMax remCap dh dt⟩

/-! Sample route points of initializeSampleRoutePoints in RouteOptimizer.tsx,
used as concrete inputs. -/

def samplePoint1 : RoutePoint :=
  { id := "point-1", name := "Bench 1 Loading", type := RPType.loading
    coordinates := ⟨100, 80⟩, capacity := some 1000, currentLoad := some 650
    waitTime := some 5 }

def samplePoint2 : RoutePoint :=
  { id := "point-2", name := "Bench 2 Loading", type := RPType.loading
    coordinates := ⟨200, 80⟩, capacity := some 1200, currentLoad := some 800
    waitTime := some 3 }

def samplePoint4 : RoutePoint :=
  { id := "point-4", name := "Waste Dump A", type := RPType.dumping
    coordinates := ⟨450, 100⟩, capacity := some 50000, currentLoad := some 32000
    waitTime := some 2 }

def sampleDumper : Equipment :=
  { id := "dum-001", name := "CAT 777G", type := EquipmentType.dumper
    status := EquipmentStatus.active, location := "Route A"
    operator := some "Sarah Wilson", capacity := some 100
    currentLoad := some 85, efficiency := some 88 }

/-- Math.round((sqrt s) / 10) agrees with the natural-number computation
(Nat.sqrt s + 5) / 10 used in the embedding of calculateDistance. -/
theorem floor_sqrt_add_half (s : ℕ) :
    (((Nat.sqrt s + 5) / 10 : ℕ) : ℤ) = ⌊Real.sqrt s / 10 + 1/2⌋ := by
  have h1 : (Nat.sqrt s : ℝ) ≤ Real.sqrt s := Real.nat_sqrt_le_real_sqrt
  have h2 : Real.sqrt s < (Nat.sqrt s : ℝ) + 1 := Real.real_sqrt_lt_nat_sqrt_succ
  have hq1 : ((Nat.sqrt s + 5) / 10) * 10 ≤ Nat.sqrt s + 5 := by omega
  have hq2 : Nat.sqrt s + 6 ≤ ((Nat.sqrt s + 5) / 10) * 10 + 10 := by omega
  have hc1 : ((((Nat.sqrt s + 5) / 10) * 10 : ℕ) : ℝ) ≤ ((Nat.sqrt s + 5 : ℕ) : ℝ) :=
    Nat.cast_le.mpr hq1
  have hc2 : ((Nat.sqrt s + 6 : ℕ) : ℝ) ≤ ((((Nat.sqrt s + 5) / 10) * 10 + 10 : ℕ) : ℝ) :=
    Nat.cast_le.mpr hq2
  push_cast at hc1 hc2
  rw [eq_comm, Int.floor_eq_iff]
  simp only [Int.cast_natCast]
  constructor
  · linarith
  · linarith

/-- The embedded calculateDistance equals the source formula
Math.round(Math.sqrt(dx*dx + dy*dy) / 10) read over the reals. -/
theorem calculateDistance_eq_real (point1 point2 : Coord) :
    calculateDistance point1 point2 =
      jsRoundReal (Real.sqrt (((point2.x - point1.x : ℤ) : ℝ)^2
        + ((point2.y - point1.y : ℤ) : ℝ)^2) / 10) := by
  have hnn : (0:ℤ) ≤ (point2.x - point1.x) * (point2.x - point1.x)
      + (point2.y - point1.y) * (point2.y - point1.y) :=
    add_nonneg (mul_self_nonneg _) (mul_self_nonneg _)
  have hsZ : ((((point2.x - point1.x) * (point2.x - point1.x)
      + (point2.y - point1.y) * (point2.y - point1.y)).toNat : ℕ) : ℤ)
      = (point2.x - point1.x) * (point2.x - point1.x)
        + (point2.y - point1.y) * (point2.y - point1.y) := Int.toNat_of_nonneg hnn
  have hsR : ((((point2.x - point1.x) * (point2.x - point1.x)
      + (point2.y - point1.y) * (point2.y - point1.y)).toNat : ℕ) : ℝ)
      = ((point2.x - point1.x : ℤ) : ℝ)^2 + ((point2.y - point1.y : ℤ) : ℝ)^2 := by
    have := congrArg (fun z : ℤ => (z : ℝ)) hsZ
    push_cast at this
    push_cast
    rw [this]
    ring
  unfold calculateDistance jsRoundReal
  rw [floor_sqrt_add_half, hsR]

theorem generateOptimizedRoute_first_max_witness :
    generateOptimizedRoute [samplePoint1, samplePoint2, samplePoint4] sampleDumper 0 0 ≠ none := by
  exact (generateOptimizedRoute_first_max [samplePoint1, samplePoint2, samplePoint4]
    sampleDumper 0 0).2.1 (by decide) (by decide)

/-- Evaluation of generateOptimizedRoute on sample points 1 and 4 for an
arbitrary random draw: distance 35, estimated time 8, fuel 11. -/
theorem generateOptimizedRoute_sample14 (rand : ℚ) :
    generateOptimizedRoute [samplePoint1, samplePoint4] sampleDumper 0 rand =
      some { id := "route-0-dum-001", equipmentId := "dum-001", equipmentName := "CAT 777G"
             points := [samplePoint1, samplePoint4], totalDistance := 35
             estimatedTime := 8, fuelConsumption := 11
             efficiency := jsRound (85 + rand * 15)
             status := RouteStatus.planned, priority := Priority.medium } := by
  have hdist : calculateDistance samplePoint1.coordinates samplePoint4.coordinates = 35 := by
    have h1 : samplePoint1.coordinates = ⟨100, 80⟩ := rfl
    have h4 : samplePoint4.coordinates = ⟨450, 100⟩ := rfl
    rw [h1, h4]
    have hsqrt : Nat.sqrt 122900 = 350 := (Nat.eq_sqrt.mpr (by norm_num)).symm
    have htn : (122900 : ℤ).toNat = 122900 := rfl
    unfold calculateDistance
    norm_num [htn, hsqrt]
  have hfl : List.filter (fun p => p.type == RPType.loading) [samplePoint1, samplePoint4]
      = samplePoint1 :: [] := rfl
  have hfd : List.filter (fun p => p.type == RPType.dumping) [samplePoint1, samplePoint4]
      = samplePoint4 :: [] := rfl
  have hw1 : samplePoint1.waitTime = some 5 := rfl
  have hw4 : samplePoint4.waitTime = some 2 := rfl
  rw [generateOptimizedRoute_cons_eq [samplePoint1, samplePoint4] sampleDumper 0 rand
    samplePoint1 samplePoint4 [] [] hfl hfd]
  simp only [List.foldl_nil, hdist, hw1, hw4]
  have h8 : jsRound (((35:ℤ):ℚ) / 25 + (some (5:ℚ)).getD 0 + (some (2:ℚ)).getD 0) = 8 := by
    norm_num [jsRound]
  have h11 : jsRound (((35:ℤ):ℚ) * (3/10)) = 11 := by norm_num [jsRound]
  rw [h8, h11]
  rfl

/-- C2 counterexample: at the admissible random draw 49/50 (Math.random may
return any value in [0,1)) the generated efficiency is
Math.round(85 + 0.98 * 15) = Math.round(99.7) = 100, which does not lie in
the claimed half-open interval [85, 100). -/
theorem routeMetrics_efficiency_cex :
    (0:ℚ) ≤ 49/50 ∧ (49/50:ℚ) < 1
      ∧ (generateOptimizedRoute [samplePoint1, samplePoint4] sampleDumper 0 (49/50)).map
          (fun r => r.efficiency) = some 100
      ∧ ¬ (100 : ℤ) < 100 := by
  refine ⟨by norm_num, by norm_num, ?_, by decide⟩
  rw [generateOptimizedRoute_sample14 (49/50)]
  norm_num [jsRound, Option.map]

/-- C2 (amended). For every generated route between loading point L and
dumping point D: totalDistance is Math.round of the Euclidean distance
divided by 10; estimatedTime is Math.round(totalDistance / 25 + L.waitTime +
D.waitTime) with a missing waitTime taken as 0; fuelConsumption is
Math.round(totalDistance * 0.3); and the efficiency Math.round(85 + r * 15)
for the random draw r in [0,1) lies in the closed interval [85, 100] (the
original open upper end 100 is attained for draws at least 29/30, see the
counterexample). -/
theorem routeMetrics_formulas (rp : List RoutePoint) (dumper : Equipment)
    (now : ℕ) (rand : ℚ) (route : OptimizedRoute)
    (h0 : 0 ≤ rand) (h1 : rand < 1)
    (hgen : generateOptimizedRoute rp dumper now rand = some route) :
    ∃ L D, route.points = [L, D]
      ∧ route.totalDistance = jsRoundReal (Real.sqrt
          (((D.coordinates.x - L.coordinates.x : ℤ) : ℝ)^2
            + ((D.coordinates.y - L.coordinates.y : ℤ) : ℝ)^2) / 10)
      ∧ route.estimatedTime = jsRound ((route.totalDistance : ℚ) / 25
          + L.waitTime.getD 0 + D.waitTime.getD 0)
      ∧ route.fuelConsumption = jsRound ((route.totalDistance : ℚ) * (3/10))
      ∧ 85 ≤ route.efficiency ∧ route.efficiency ≤ 100 := by
  cases hl : rp.filter (fun p => p.type == RPType.loading) with
  | nil =>
    rw [(by simp [generateOptimizedRoute, hl] :
      generateOptimizedRoute rp dumper now rand = none)] at hgen
    exact absurd hgen (by simp)
  | cons lh lt =>
    cases hd : rp.filter (fun p => p.type == RPType.dumping) with
    | nil =>
      rw [(by simp [generateOptimizedRoute, hl, hd] :
        generateOptimizedRoute rp dumper now rand = none)] at hgen
      exact absurd hgen (by simp)
    | cons dh dt =>
      rw [generateOptimizedRoute_cons_eq rp dumper now rand lh dh lt dt hl hd] at hgen
      obtain rfl := Option.some.injEq _ _ ▸ hgen
      refine ⟨lt.foldl betterPoint lh, dt.foldl betterPoint dh, rfl,
        calculateDistance_eq_real _ _, rfl, rfl, ?_, ?_⟩
      · unfold jsRound
        refine Int.le_floor.mpr ?_
        push_cast
        have : 0 ≤ rand * 15 := mul_nonneg h0 (by norm_num)
        linarith
      · unfold jsRound
        have hlt101 : (85:ℚ) + rand * 15 + 1/2 < ((101:ℤ):ℚ) := by push_cast; linarith
        exact Int.lt_add_one_iff.mp (Int.floor_lt.mpr hlt101)

/-- The concrete route generated from sample points 1 and 4 with the random
draw 1/2 (distance 35, time 8, fuel 11, efficiency 93). -/
def routeC2 : OptimizedRoute :=
  { id := "route-0-dum-001", equipmentId := "dum-001", equipmentName := "CAT 777G"
    points := [samplePoint1, samplePoint4], totalDistance := 35, estimatedTime := 8
    fuelConsumption := 11, efficiency := 93
    status := RouteStatus.planned, priority := Priority.medium }

theorem routeMetrics_formulas_witness :
    85 ≤ routeC2.efficiency ∧ routeC2.efficiency ≤ 100 := by
  obtain ⟨L, D, -, -, -, -, h5, h6⟩ :=
    routeMetrics_formulas [samplePoint1, samplePoint4] sampleDumper 0 (1/2) routeC2
      (by norm_num) (by norm_num)
      (by rw [generateOptimizedRoute_sample14 (1/2)]; norm_num [jsRound, routeC2])
  exact ⟨h5, h6⟩

/-! ## Fleet metrics (App.tsx, getFleetMetrics) -/

theorem foldl_add_map {α : Type} (g : α → ℚ) (l : List α) (a : ℚ) :
    l.foldl (fun acc x => acc + g x) a = a + (l.map g).sum := by
  induction l generalizing a with
  | nil => simp
  | cons x l ih => simp [List.foldl_cons, ih, add_assoc]

structure FleetMetrics where
  total : ℕ
  active : ℕ
  idle : ℕ
  maintenance : ℕ
  avgEfficiency : ℚ
deriving Repr

/-- getFleetMetrics in App.tsx: counts by status, and the reduce over
(eq.efficiency || 0) divided by the total count (for an empty list the JS
quotient 0/0 is NaN; in this exact embedding the rational convention 0/0 = 0
is used on both sides of any statement about it). -/
def getFleetMetrics (equipment : List Equipment) : FleetMetrics :=
  { total := equipment.length
    active := (equipment.filter (fun e => e.status == EquipmentStatus.active)).length
    idle := (equipment.filter (fun e => e.status == EquipmentStatus.idle)).length
    maintenance := (equipment.filter (fun e => e.status == EquipmentStatus.maintenance)).length
    avgEfficiency := equipment.foldl (fun acc e => acc + e.efficiency.getD 0) 0
      / (equipment.length : ℚ) }

/-- C3. The fleet efficiency shown on the dispatch overview is the sum of
every equipment efficiency value (a missing efficiency contributing 0)
divided by the total number of equipment items, for every list including
the empty one. -/
theorem getFleetMetrics_avgEfficiency_mean (equipment : List Equipment) :
    (getFleetMetrics equipment).avgEfficiency
      = (equipment.map (fun e => e.efficiency.getD 0)).sum / (equipment.length : ℚ) := by
  unfold getFleetMetrics
  rw [foldl_add_map]
  ring

/-! ## Assignments (App.tsx, interface Assignment, createAssignment,
loadAssignments, and the Active Assignments card) -/

inductive AssignmentStatus where
  | pending | active | completed | cancelled
deriving DecidableEq, Repr

/-- interface Assignment in App.tsx. -/
structure Assignment where
  id : String
  excavatorId : String
  dumperId : String
  crusherId : Option String := none
  dumpyardId : String
  priority : Priority
  estimatedTime : ℚ
  progress : ℚ
  status : AssignmentStatus
deriving DecidableEq, Repr

/-- How a JSX child expression renders: a present string renders as itself,
null or undefined renders as nothing (the empty string) — the framework
ignores undefined children rather than stringifying them. -/
def jsxText (o : Option String) : String := o.getD ""

/-- The text content of the assignment row rendered in the Active
Assignments card of App.tsx:
the div with \x7bexcavator?.name\x7d → \x7bdumper?.name\x7d, where excavator
and dumper are equipment.find over the unvalidated id references. -/
def renderAssignmentRow (equipment : List Equipment) (assignment : Assignment) : String :=
  jsxText ((equipment.find? (fun e => e.id == assignment.excavatorId)).map (fun e => e.name))
    ++ " → "
    ++ jsxText ((equipment.find? (fun e => e.id == assignment.dumperId)).map (fun e => e.name))

/-- An assignment whose equipment references match nothing in the list. -/
def danglingAssignment : Assignment :=
  { id := "assign-1", excavatorId := "exc-999", dumperId := "dum-999", crusherId := none
    dumpyardId := "yard-001", priority := Priority.medium, estimatedTime := 60, progress := 0
    status := AssignmentStatus.active }

/-- C4 counterexample: with a dangling excavator and dumper reference the
rendered row text is just the arrow with nothing around it; the literal text
"undefined" never appears (JSX ignores undefined children; only a template
string would print "undefined"). Rendering is a total function, so it does
not throw. -/
theorem renderAssignmentRow_cex :
    renderAssignmentRow [sampleDumper] danglingAssignment = " → "
      ∧ renderAssignmentRow [sampleDumper] danglingAssignment ≠ "undefined → undefined" := by
  refine ⟨rfl, ?_⟩
  decide

/-- C4 (amended). For every assignment in which the excavatorId or the
dumperId (either one, or both) matches no equipment item, rendering the
Active Assignments row does not throw (the render function is total) and the
row splits around the arrow into a left and a right part: a dangling
excavator reference renders its part as the empty string — never the text
"undefined" — and likewise a dangling dumper reference; a side whose
reference is found renders that equipment name; with both references
dangling the row is exactly the bare arrow. -/
theorem renderAssignmentRow_dangling (equipment : List Equipment) (assignment : Assignment)
    (_hdangle : equipment.find? (fun e => e.id == assignment.excavatorId) = none
      ∨ equipment.find? (fun e => e.id == assignment.dumperId) = none) :
    ∃ left right : String,
      renderAssignmentRow equipment assignment = left ++ " → " ++ right
      ∧ (equipment.find? (fun e => e.id == assignment.excavatorId) = none → left = "")
      ∧ (equipment.find? (fun e => e.id == assignment.dumperId) = none → right = "")
      ∧ (∀ e, equipment.find? (fun e => e.id == assignment.excavatorId) = some e →
          left = e.name)
      ∧ (∀ e, equipment.find? (fun e => e.id == assignment.dumperId) = some e →
          right = e.name)
      ∧ (equipment.find? (fun e => e.id == assignment.excavatorId) = none →
          equipment.find? (fun e => e.id == assignment.dumperId) = none →
          renderAssignmentRow equipment assignment = " → ") := by
  refine ⟨jsxText ((equipment.find? (fun e : Equipment => e.id == assignment.excavatorId)).map
      (fun e : Equipment => e.name)),
    jsxText ((equipment.find? (fun e : Equipment => e.id == assignment.dumperId)).map
      (fun e : Equipment => e.name)),
    rfl, ?_, ?_, ?_, ?_, ?_⟩
  · intro hexc; rw [hexc]; rfl
  · intro hdum; rw [hdum]; rfl
  · intro e he; rw [he]; rfl
  · intro e he; rw [he]; rfl
  · intro hexc hdum
    unfold renderAssignmentRow
    rw [hexc, hdum]
    rfl

/-- An assignment with a dangling excavator reference but a resolvable
dumper reference. -/
def halfDanglingAssignment : Assignment :=
  { id := "assign-2", excavatorId := "exc-999", dumperId := "dum-001", crusherId := none
    dumpyardId := "yard-001", priority := Priority.medium, estimatedTime := 60, progress := 0
    status := AssignmentStatus.active }

theorem renderAssignmentRow_dangling_witness :
    renderAssignmentRow [sampleDumper] danglingAssignment = " → "
    ∧ renderAssignmentRow [sampleDumper] halfDanglingAssignment = " → CAT 777G" := by
  constructor
  · obtain ⟨left, right, -, -, -, -, -, hboth⟩ :=
      renderAssignmentRow_dangling [sampleDumper] danglingAssignment (Or.inl rfl)
    exact hboth rfl rfl
  · obtain ⟨left, right, heq, hl, -, -, hr, -⟩ :=
      renderAssignmentRow_dangling [sampleDumper] halfDanglingAssignment (Or.inl rfl)
    rw [heq, hl rfl, hr sampleDumper rfl]
    rfl

/-- The form state of CreateAssignmentDialog in App.tsx (the assignmentData
passed to createAssignment; no caller supplies id, status or progress). -/
structure AssignmentForm where
  excavatorId : String
  dumperId : String
  crusherId : Option String := none
  dumpyardId : String
  priority : Priority
  estimatedTime : ℚ
deriving DecidableEq, Repr

/-- The row persisted by createAssignment in App.tsx: the spread of the form
data followed by the fixed fields status: "pending" and progress: 0
(spread order makes these override anything in the form), with the generated
id assign-Date.now(). -/
def newAssignmentRow (formData : AssignmentForm) (now : ℕ) : Assignment :=
  { id := "assign-" ++ toString now
    excavatorId := formData.excavatorId
    dumperId := formData.dumperId
    crusherId := formData.crusherId
    dumpyardId := formData.dumpyardId
    priority := formData.priority
    estimatedTime := formData.estimatedTime
    status := AssignmentStatus.pending
    progress := 0 }

/-- The persisted assignments collection after createAssignment. -/
def applyCreateAssignment (formData : AssignmentForm) (now : ℕ)
    (db : List Assignment) : List Assignment :=
  db ++ [newAssignmentRow formData now]

/-- loadAssignments in App.tsx lists with where \x7b status: "active" \x7d:
only assignments whose persisted status is "active" reach the view state
(the orderBy only permutes the result and is not modelled). -/
def loadAssignments (db : List Assignment) : List Assignment :=
  db.filter (fun a => a.status == AssignmentStatus.active)

/-- C8. A freshly created assignment is persisted with status "pending" and
progress 0 regardless of the form input, the dispatch board shows exactly
the assignments with status "active", and hence the new assignment never
appears in the displayed Active Assignments list. -/
theorem createAssignment_not_in_active_list (formData : AssignmentForm) (now : ℕ)
    (db : List Assignment) :
    (newAssignmentRow formData now).status = AssignmentStatus.pending
    ∧ (newAssignmentRow formData now).progress = 0
    ∧ (∀ a, a ∈ loadAssignments db ↔ a ∈ db ∧ a.status = AssignmentStatus.active)
    ∧ newAssignmentRow formData now ∉ loadAssignments (applyCreateAssignment formData now db) := by
  refine ⟨rfl, rfl, ?_, ?_⟩
  · intro a
    unfold loadAssignments
    rw [List.mem_filter]
    simp
  · unfold loadAssignments applyCreateAssignment
    intro hmem
    rw [List.mem_filter] at hmem
    have h2 := hmem.2
    simp [newAssignmentRow] at h2

/-! ## Analytics (AnalyticsDashboard.tsx, calculateAnalytics) -/

structure EquipmentMetrics where
  utilization : ℚ
  availability : ℚ
  performance : ℚ
  oee : ℚ
deriving Repr

/-- The equipmentMetrics record of calculateAnalytics in
AnalyticsDashboard.tsx: the deterministic aggregate over the equipment list
(the production, cost and trend fields of calculateAnalytics are Math.random
and Math.sin simulation outputs that no claim refers to; as for
getFleetMetrics, the unguarded JS expression sum/0 = NaN for an empty list
is rendered by the rational convention 0/0 = 0 on both sides). -/
def calculateAnalyticsEquipment (equipment : List Equipment) : EquipmentMetrics :=
  let totalEquipment := equipment.length
  let activeEquipment := (equipment.filter (fun e => e.status == EquipmentStatus.active)).length
  let maintenanceEquipment :=
    (equipment.filter (fun e => e.status == EquipmentStatus.maintenance)).length
  let avgEfficiency := equipment.foldl (fun acc e => acc + e.efficiency.getD 0) 0
    / (totalEquipment : ℚ)
  let utilization := if 0 < totalEquipment
    then ((activeEquipment : ℚ) / (totalEquipment : ℚ)) * 100 else 0
  let availability := if 0 < totalEquipment
    then (((totalEquipment : ℚ) - (maintenanceEquipment : ℚ)) / (totalEquipment : ℚ)) * 100 else 0
  { utilization := utilization
    availability := availability
    performance := avgEfficiency
    oee := utilization * availability * avgEfficiency / 10000 }

/-- C7. The displayed OEE is the product of the three percentage aggregates
divided by 10000: oee = utilization * availability * performance / 10000,
where utilization = active/total * 100, availability =
(total - maintenance)/total * 100 and performance is the average equipment
efficiency (the ternary guards of the source coincide with the unguarded
formulas under the rational convention x/0 = 0). -/
theorem calculateAnalytics_oee_product (equipment : List Equipment) :
    (calculateAnalyticsEquipment equipment).utilization
        = ((equipment.filter (fun e => e.status == EquipmentStatus.active)).length : ℚ)
          / (equipment.length : ℚ) * 100
    ∧ (calculateAnalyticsEquipment equipment).availability
        = ((equipment.length : ℚ)
            - ((equipment.filter (fun e => e.status == EquipmentStatus.maintenance)).length : ℚ))
          / (equipment.length : ℚ) * 100
    ∧ (calculateAnalyticsEquipment equipment).performance
        = (equipment.map (fun e => e.efficiency.getD 0)).sum / (equipment.length : ℚ)
    ∧ (calculateAnalyticsEquipment equipment).oee
        = (calculateAnalyticsEquipment equipment).utilization
          * (calculateAnalyticsEquipment equipment).availability
          * (calculateAnalyticsEquipment equipment).performance / 10000 := by
  unfold calculateAnalyticsEquipment
  rcases Nat.eq_zero_or_pos equipment.length with h0 | hpos
  · obtain rfl := List.length_eq_zero.mp h0
    norm_num
  · simp only [if_pos hpos]
    refine ⟨by ring_nf, by ring_nf, ?_, by ring_nf⟩
    rw [foldl_add_map]
    ring_nf

/-! ## Error handling (the catch blocks wrapping every backend call site in
App.tsx, MaintenanceScheduler.tsx, RouteOptimizer.tsx) -/

/-- An observable effect of a catch handler: a console.error log (its fixed
message prefix and the caught error), an error toast, a success toast, or a
further backend request. Each handler below transcribes one catch block; all
are total functions of the caught error, so a failure never propagates. -/
inductive Effect where
  | log : String → String → Effect
  | toastError : String → Effect
  | toastSuccess : String → Effect
  | backendCall : String → Effect
deriving DecidableEq, Repr

def isLogEffect : Effect → Bool
  | Effect.log _ _ => true
  | _ => false

def isToastErrorEffect : Effect → Bool
  | Effect.toastError _ => true
  | _ => false

def isBackendCallEffect : Effect → Bool
  | Effect.backendCall _ => true
  | _ => false

/-- catch of loadEquipment in App.tsx: log and error toast. -/
def loadEquipmentOnError (e : String) : List Effect :=
  [Effect.log "Failed to load equipment:" e,
   Effect.toastError "Failed to load equipment data"]

/-- catch of loadAssignments in App.tsx: log only, no toast. -/
def loadAssignmentsOnError (e : String) : List Effect :=
  [Effect.log "Failed to load assignments:" e]

/-- catch of initializeSampleData in App.tsx: log only. -/
def initSampleDataOnError (e : String) : List Effect :=
  [Effect.log "Failed to initialize sample data:" e]

/-- catch of updateEquipmentStatus in App.tsx: log and error toast. -/
def updateEquipmentStatusOnError (e : String) : List Effect :=
  [Effect.log "Failed to update equipment status:" e,
   Effect.toastError "Failed to update equipment status"]

/-- catch of createAssignment in App.tsx: log and error toast. -/
def createAssignmentOnError (e : String) : List Effect :=
  [Effect.log "Failed to create assignment:" e,
   Effect.toastError "Failed to create assignment"]

/-- catch of loadMaintenanceTasks in MaintenanceScheduler.tsx. -/
def loadMaintenanceTasksOnError (e : String) : List Effect :=
  [Effect.log "Failed to load maintenance tasks:" e,
   Effect.toastError "Failed to load maintenance tasks"]

/-- catch of createMaintenanceTask in MaintenanceScheduler.tsx. -/
def createMaintenanceTaskOnError (e : String) : List Effect :=
  [Effect.log "Failed to create maintenance task:" e,
   Effect.toastError "Failed to schedule maintenance task"]

/-- catch of updateTaskStatus in MaintenanceScheduler.tsx. -/
def updateTaskStatusOnError (e : String) : List Effect :=
  [Effect.log "Failed to update task status:" e,
   Effect.toastError "Failed to update task status"]

/-- catch of loadRoutes in RouteOptimizer.tsx: log only, no toast. -/
def loadRoutesOnError (e : String) : List Effect :=
  [Effect.log "Failed to load routes:" e]

/-- catch of loadRoutePoints in RouteOptimizer.tsx: log only, no toast. -/
def loadRoutePointsOnError (e : String) : List Effect :=
  [Effect.log "Failed to load route points:" e]

/-- catch of initializeSampleRoutePoints in RouteOptimizer.tsx: log only. -/
def initSampleRoutePointsOnError (e : String) : List Effect :=
  [Effect.log "Failed to initialize route points:" e]

/-- catch of optimizeRoutes in RouteOptimizer.tsx. -/
def optimizeRoutesOnError (e : String) : List Effect :=
  [Effect.log "Failed to optimize routes:" e,
   Effect.toastError "Failed to optimize routes"]

/-- catch of activateRoute in RouteOptimizer.tsx. -/
def activateRouteOnError (e : String) : List Effect :=
  [Effect.log "Failed to activate route:" e,
   Effect.toastError "Failed to activate route"]

/-- catch of handleSubmit in CreateRouteDialog of RouteOptimizer.tsx. -/
def createManualRouteOnError (e : String) : List Effect :=
  [Effect.log "Failed to create route:" e,
   Effect.toastError "Failed to create route"]

/-- C5 counterexample: the catch handler of loadAssignments — the operation
that loads assignments from the backend — only logs; no error toast is among
its effects, contradicting the claim that every failing backend call shows a
generic error toast. -/
theorem loadAssignments_no_toast_cex :
    loadAssignmentsOnError "network failure"
        = [Effect.log "Failed to load assignments:" "network failure"]
      ∧ (loadAssignmentsOnError "network failure").any isToastErrorEffect = false :=
  ⟨rfl, rfl⟩

/-- C5 (amended). Every backend-call failure is caught (each handler is a
total function of the error, so nothing propagates), logged via
console.error, and never retried (no further backend call occurs in any
catch handler); a generic error toast is shown by the equipment load, every
create and update operation, the maintenance-task load and the route
optimize/activate/create operations — but NOT by the assignment-list load,
the route-list load, the route-point load, or the two sample-data
initialization writes, which only log. -/
theorem catch_handlers_log_no_retry (e : String) :
    ((loadEquipmentOnError e).any isLogEffect = true
      ∧ (loadEquipmentOnError e).any isToastErrorEffect = true
      ∧ (loadEquipmentOnError e).any isBackendCallEffect = false)
    ∧ ((loadAssignmentsOnError e).any isLogEffect = true
      ∧ (loadAssignmentsOnError e).any isToastErrorEffect = false
      ∧ (loadAssignmentsOnError e).any isBackendCallEffect = false)
    ∧ ((initSampleDataOnError e).any isLogEffect = true
      ∧ (initSampleDataOnError e).any isToastErrorEffect = false
      ∧ (initSampleDataOnError e).any isBackendCallEffect = false)
    ∧ ((updateEquipmentStatusOnError e).any isLogEffect = true
      ∧ (updateEquipmentStatusOnError e).any isToastErrorEffect = true
      ∧ (updateEquipmentStatusOnError e).any isBackendCallEffect = false)
    ∧ ((createAssignmentOnError e).any isLogEffect = true
      ∧ (createAssignmentOnError e).any isToastErrorEffect = true
      ∧ (createAssignmentOnError e).any isBackendCallEffect = false)
    ∧ ((loadMaintenanceTasksOnError e).any isLogEffect = true
      ∧ (loadMaintenanceTasksOnError e).any isToastErrorEffect = true
      ∧ (loadMaintenanceTasksOnError e).any isBackendCallEffect = false)
    ∧ ((createMaintenanceTaskOnError e).any isLogEffect = true
      ∧ (createMaintenanceTaskOnError e).any isToastErrorEffect = true
      ∧ (createMaintenanceTaskOnError e).any isBackendCallEffect = false)
    ∧ ((updateTaskStatusOnError e).any isLogEffect = true
      ∧ (updateTaskStatusOnError e).any isToastErrorEffect = true
      ∧ (updateTaskStatusOnError e).any isBackendCallEffect = false)
    ∧ ((loadRoutesOnError e).any isLogEffect = true
      ∧ (loadRoutesOnError e).any isToastErrorEffect = false
      ∧ (loadRoutesOnError e).any isBackendCallEffect = false)
    ∧ ((loadRoutePointsOnError e).any isLogEffect = true
      ∧ (loadRoutePointsOnError e).any isToastErrorEffect = false
      ∧ (loadRoutePointsOnError e).any isBackendCallEffect = false)
    ∧ ((initSampleRoutePointsOnError e).any isLogEffect = true
      ∧ (initSampleRoutePointsOnError e).any isToastErrorEffect = false
      ∧ (initSampleRoutePointsOnError e).any isBackendCallEffect = false)
    ∧ ((optimizeRoutesOnError e).any isLogEffect = true
      ∧ (optimizeRoutesOnError e).any isToastErrorEffect = true
      ∧ (optimizeRoutesOnError e).any isBackendCallEffect = false)
    ∧ ((activateRouteOnError e).any isLogEffect = true
      ∧ (activateRouteOnError e).any isToastErrorEffect = true
      ∧ (activateRouteOnError e).any isBackendCallEffect = false)
    ∧ ((createManualRouteOnError e).any isLogEffect = true
      ∧ (createManualRouteOnError e).any isToastErrorEffect = true
      ∧ (createManualRouteOnError e).any isBackendCallEffect = false) :=
  ⟨⟨rfl, rfl, rfl⟩, ⟨rfl, rfl, rfl⟩, ⟨rfl, rfl, rfl⟩, ⟨rfl, rfl, rfl⟩,
   ⟨rfl, rfl, rfl⟩, ⟨rfl, rfl, rfl⟩, ⟨rfl, rfl, rfl⟩, ⟨rfl, rfl, rfl⟩,
   ⟨rfl, rfl, rfl⟩, ⟨rfl, rfl, rfl⟩, ⟨rfl, rfl, rfl⟩, ⟨rfl, rfl, rfl⟩,
   ⟨rfl, rfl, rfl⟩, ⟨rfl, rfl, rfl⟩⟩

/-! ## Maintenance scheduler (MaintenanceScheduler.tsx) -/

inductive MaintenanceType where
  | preventive | corrective | inspection
deriving DecidableEq, Repr

inductive TaskPriority where
  | low | medium | high | critical
deriving DecidableEq, Repr

/-- MaintenanceTask.status. The value "overdue" exists in the type but, as
claimed, is only ever computed client-side. -/
inductive TaskStatus where
  | scheduled | inProgress | completed | overdue
deriving DecidableEq, Repr

/-- interface MaintenanceTask in MaintenanceScheduler.tsx (scheduledDate and
completedDate are ISO timestamps, embedded as ℤ). -/
structure MaintenanceTask where
  id : String
  equipmentId : String
  equipmentName : String
  type : MaintenanceType
  priority : TaskPriority
  scheduledDate : ℤ
  estimatedDuration : ℚ
  description : String
  status : TaskStatus
  assignedTechnician : Option String := none
  completedDate : Option ℤ := none
  notes : Option String := none
deriving DecidableEq, Repr

/-- overdueTasks in MaintenanceScheduler.tsx: stored status "scheduled" and
scheduledDate strictly before the current time (new Date comparison). -/
def overdueTasks (tasks : List MaintenanceTask) (now : ℤ) : List MaintenanceTask :=
  tasks.filter (fun t => t.status == TaskStatus.scheduled && decide (t.scheduledDate < now))

/-- The persisted collections updateTaskStatus touches. -/
structure Store where
  tasks : List MaintenanceTask
  equipment : List Equipment
deriving DecidableEq, Repr

/-- The per-row update of blink.db.maintenanceTasks.update in
updateTaskStatus: the status always, completedDate only when the new status
is "completed", notes only when the notes string is truthy (non-empty). -/
def updTask (taskId : String) (status : TaskStatus) (notes : String) (now : ℤ)
    (t : MaintenanceTask) : MaintenanceTask :=
  if t.id == taskId then
    { t with status := status
             completedDate := if status == TaskStatus.completed then some now
               else t.completedDate
             notes := if notes == "" then t.notes else some notes }
  else t

/-- updateTaskStatus in MaintenanceScheduler.tsx acting on the persisted
collections: the task row update, followed — only when the new status is
"completed" and the task is found in the in-memory list — by an equipment
row update to status "idle" with lastMaintenance set to the current time
(the updatedAt bookkeeping column is not part of the Equipment interface
and is not modelled). -/
def applyUpdateTaskStatus (taskId : String) (status : TaskStatus) (notes : String)
    (now : ℤ) (st : Store) : Store :=
  { tasks := st.tasks.map (updTask taskId status notes now)
    equipment :=
      if status == TaskStatus.completed then
        match st.tasks.find? (fun t => t.id == taskId) with
        | some task => st.equipment.map (fun e =>
            if e.id == task.equipmentId then
              { e with status := EquipmentStatus.idle, lastMaintenance := some now }
            else e)
        | none => st.equipment
      else st.equipment }

/-- handleStatusUpdate of MaintenanceTaskCard: completing with blank notes
only opens the notes dialog (none: no write happens); otherwise the
requested status and notes are handed to updateTaskStatus. -/
def handleStatusUpdate (notes : String) (status : TaskStatus) :
    Option (TaskStatus × String) :=
  if status == TaskStatus.completed && notes.trim == "" then none
  else some (status, notes)

/-- The buttons of MaintenanceTaskCard and the status each one requests:
Start requests "in_progress"; Complete, Mark Complete and Complete with
Notes request "completed". These are the only updateTaskStatus call sites. -/
inductive MaintenanceButton where
  | start | complete | completeWithNotes
deriving DecidableEq, Repr

def buttonStatus : MaintenanceButton → TaskStatus
  | MaintenanceButton.start => TaskStatus.inProgress
  | MaintenanceButton.complete => TaskStatus.completed
  | MaintenanceButton.completeWithNotes => TaskStatus.completed

/-- The form of CreateMaintenanceTaskDialog; its handleSubmit always passes
status "scheduled" to createMaintenanceTask. -/
structure MaintenanceForm where
  equipmentId : String
  equipmentName : String
  type : MaintenanceType
  priority : TaskPriority
  scheduledDate : ℤ
  estimatedDuration : ℚ
  description : String
  assignedTechnician : Option String := none
deriving DecidableEq, Repr

/-- The row persisted by createMaintenanceTask: the dialog form with the
generated id maint-Date.now() and status "scheduled". -/
def newMaintenanceTaskRow (form : MaintenanceForm) (now : ℤ) : MaintenanceTask :=
  { id := "maint-" ++ toString now
    equipmentId := form.equipmentId
    equipmentName := form.equipmentName
    type := form.type
    priority := form.priority
    scheduledDate := form.scheduledDate
    estimatedDuration := form.estimatedDuration
    description := form.description
    status := TaskStatus.scheduled
    assignedTechnician := form.assignedTechnician }

def applyCreateMaintenanceTask (form : MaintenanceForm) (now : ℤ)
    (tasks : List MaintenanceTask) : List MaintenanceTask :=
  tasks ++ [newMaintenanceTaskRow form now]

/-- C6. "Overdue" is computed client-side only: a task is counted overdue
exactly when its stored status is "scheduled" and its scheduledDate is
strictly before the current time; the maintenance card buttons only ever
request "in_progress" or "completed", task creation writes "scheduled", and
consequently no reachable operation writes "overdue" into the persisted
collection — any overdue-status row present after an update or create was
already there before. -/
theorem overdue_client_side_only :
    (∀ (tasks : List MaintenanceTask) (now : ℤ) (t : MaintenanceTask),
        t ∈ overdueTasks tasks now
          ↔ t ∈ tasks ∧ t.status = TaskStatus.scheduled ∧ t.scheduledDate < now)
    ∧ (∀ (b : MaintenanceButton) (notes : String) (s : TaskStatus) (n : String),
        handleStatusUpdate notes (buttonStatus b) = some (s, n)
          → s = TaskStatus.inProgress ∨ s = TaskStatus.completed)
    ∧ (∀ (b : MaintenanceButton) (notes : String) (s : TaskStatus) (n : String)
        (taskId : String) (now : ℤ) (st : Store),
        handleStatusUpdate notes (buttonStatus b) = some (s, n)
          → ∀ t ∈ (applyUpdateTaskStatus taskId s n now st).tasks,
              t.status = TaskStatus.overdue
                → ∃ t0 ∈ st.tasks, t0.id = t.id ∧ t0.status = TaskStatus.overdue)
    ∧ (∀ (form : MaintenanceForm) (now : ℤ) (tasks : List MaintenanceTask),
        ∀ t ∈ applyCreateMaintenanceTask form now tasks,
          t.status = TaskStatus.overdue → t ∈ tasks) := by
  have hbs : ∀ (b : MaintenanceButton) (notes : String) (s : TaskStatus) (n : String),
      handleStatusUpdate notes (buttonStatus b) = some (s, n) → buttonStatus b = s := by
    intro b notes s n h
    unfold handleStatusUpdate at h
    by_cases hc : (buttonStatus b == TaskStatus.completed && notes.trim == "") = true
    · rw [if_pos hc] at h; cases h
    · rw [if_neg hc] at h
      injection h with h'
      exact congrArg Prod.fst h'
  refine ⟨?_, ?_, ?_, ?_⟩
  · intro tasks now t
    unfold overdueTasks
    rw [List.mem_filter]
    simp [and_assoc]
  · intro b notes s n h
    have := hbs b notes s n h
    cases b
    · exact Or.inl this.symm
    · exact Or.inr this.symm
    · exact Or.inr this.symm
  · intro b notes s n taskId now st h t ht hov
    have hs := hbs b notes s n h
    have hsno : s ≠ TaskStatus.overdue := by
      cases b <;> rw [← hs] <;> decide
    unfold applyUpdateTaskStatus at ht
    simp only at ht
    obtain ⟨t0, ht0, rfl⟩ := List.mem_map.mp ht
    unfold updTask at hov ⊢
    by_cases hid : (t0.id == taskId) = true
    · rw [if_pos hid] at hov
      exact absurd hov hsno
    · rw [if_neg hid] at hov ⊢
      exact ⟨t0, ht0, rfl, hov⟩
  · intro form now tasks t ht hov
    unfold applyCreateMaintenanceTask at ht
    rcases List.mem_append.mp ht with h | h
    · exact h
    · rw [List.mem_singleton] at h
      subst h
      simp [newMaintenanceTaskRow] at hov

/-- A concrete scheduled maintenance task. -/
def sampleTask : MaintenanceTask :=
  { id := "maint-1", equipmentId := "dum-001", equipmentName := "CAT 777G"
    type := MaintenanceType.preventive, priority := TaskPriority.high
    scheduledDate := 0, estimatedDuration := 4, description := "Oil change"
    status := TaskStatus.scheduled }

theorem overdue_client_side_only_witness :
    sampleTask ∈ overdueTasks [sampleTask] 5 :=
  (overdue_client_side_only.1 [sampleTask] 5 sampleTask).mpr
    ⟨List.mem_singleton.mpr rfl, rfl, by decide⟩

/-- C9. Marking a maintenance task "completed" — and only that status — sets
the matched row's completedDate to the current time and overwrites the
referenced equipment record with status "idle" and lastMaintenance set to
the current time; an update to any other status changes no equipment record
and leaves completedDate untouched, and rows whose id does not match are
never changed. -/
theorem updateTaskStatus_completed_effects (taskId : String) (s : TaskStatus)
    (notes : String) (now : ℤ) (st : Store) :
    (s ≠ TaskStatus.completed →
        (applyUpdateTaskStatus taskId s notes now st).equipment = st.equipment)
    ∧ (∀ t ∈ st.tasks, t.id = taskId →
        ∃ t' ∈ (applyUpdateTaskStatus taskId s notes now st).tasks,
          t'.id = taskId ∧ t'.status = s
          ∧ t'.completedDate
              = (if s = TaskStatus.completed then some now else t.completedDate))
    ∧ (∀ t ∈ st.tasks, t.id ≠ taskId →
        t ∈ (applyUpdateTaskStatus taskId s notes now st).tasks)
    ∧ (s = TaskStatus.completed →
        ∀ task, st.tasks.find? (fun t => t.id == taskId) = some task →
          ∀ e ∈ st.equipment,
            (e.id = task.equipmentId →
              { e with status := EquipmentStatus.idle, lastMaintenance := some now }
                ∈ (applyUpdateTaskStatus taskId s notes now st).equipment)
            ∧ (e.id ≠ task.equipmentId →
              e ∈ (applyUpdateTaskStatus taskId s notes now st).equipment)) := by
  refine ⟨?_, ?_, ?_, ?_⟩
  · intro hne
    unfold applyUpdateTaskStatus
    simp [hne]
  · intro t ht hid
    refine ⟨updTask taskId s notes now t, ?_, ?_, ?_, ?_⟩
    · unfold applyUpdateTaskStatus
      simp only
      exact List.mem_map_of_mem _ ht
    · unfold updTask
      rw [if_pos (by simp [hid])]
      exact hid
    · unfold updTask
      rw [if_pos (by simp [hid])]
    · unfold updTask
      rw [if_pos (by simp [hid])]
      by_cases hs : s = TaskStatus.completed
      · simp [hs]
      · simp [hs]
  · intro t ht hid
    unfold applyUpdateTaskStatus
    simp only
    have : updTask taskId s notes now t = t := by
      unfold updTask
      rw [if_neg (by simp [hid])]
    exact this ▸ List.mem_map_of_mem _ ht
  · intro hs task hfind e he
    subst hs
    unfold applyUpdateTaskStatus
    simp only [hfind]
    constructor
    · intro heq
      have : (fun e : Equipment =>
          if e.id == task.equipmentId then
            { e with status := EquipmentStatus.idle, lastMaintenance := some now }
          else e) e
          = { e with status := EquipmentStatus.idle, lastMaintenance := some now } := by
        simp [heq]
      exact this ▸ List.mem_map_of_mem _ he
    · intro hne
      have : (fun e : Equipment =>
          if e.id == task.equipmentId then
            { e with status := EquipmentStatus.idle, lastMaintenance := some now }
          else e) e = e := by
        simp [hne]
      exact this ▸ List.mem_map_of_mem _ he

def sampleStore : Store := { tasks := [sampleTask], equipment := [sampleDumper] }

theorem updateTaskStatus_completed_effects_witness :
    (applyUpdateTaskStatus "maint-1" TaskStatus.inProgress "" 5 sampleStore).equipment
      = sampleStore.equipment :=
  (updateTaskStatus_completed_effects "maint-1" TaskStatus.inProgress "" 5 sampleStore).1
    (by decide)

/-! ## Production metrics tick (App.tsx, updateProductionMetrics) -/

/-- interface ProductionMetrics in App.tsx. -/
structure ProductionMetrics where
  tonsPerHour : ℚ
  dailyTotal : ℚ
  targetPercentage : ℚ
  equipmentUtilization : ℚ
deriving DecidableEq, Repr

/-- updateProductionMetrics in App.tsx: one 30-second tick of the simulated
real-time update, with the four independent Math.random() draws r1..r4 made
explicit. tonsPerHour and dailyTotal are not clamped; targetPercentage and
equipmentUtilization are clamped above by Math.min(100, ...). -/
def updateProductionMetrics (r1 r2 r3 r4 : ℚ) (prev : ProductionMetrics) :
    ProductionMetrics :=
  { tonsPerHour := prev.tonsPerHour + (r1 - 1/2) * 100
    dailyTotal := prev.dailyTotal + r2 * 50
    targetPercentage := min 100 (prev.targetPercentage + (r3 - 1/2) * 2)
    equipmentUtilization := min 100 (prev.equipmentUtilization + (r4 - 1/2) * 3) }

/-- A sequence of ticks, each with its own four random draws. -/
def runTicks (rs : List (ℚ × ℚ × ℚ × ℚ)) (st : ProductionMetrics) : ProductionMetrics :=
  rs.foldl (fun s r => updateProductionMetrics r.1 r.2.1 r.2.2.1 r.2.2.2 s) st

theorem runTicks_replicate_tons (n : ℕ) (r : ℚ) (st : ProductionMetrics) :
    (runTicks (List.replicate n (r, 0, 0, 0)) st).tonsPerHour
      = st.tonsPerHour + n * ((r - 1/2) * 100) := by
  induction n generalizing st with
  | zero => simp [runTicks]
  | succ n ih =>
    rw [List.replicate_succ]
    unfold runTicks at ih ⊢
    rw [List.foldl_cons, ih]
    unfold updateProductionMetrics
    push_cast
    ring

/-- All four draws of a tick are admissible Math.random() values. -/
def ValidDraw (q : ℚ × ℚ × ℚ × ℚ) : Prop :=
  0 ≤ q.1 ∧ q.1 < 1 ∧ 0 ≤ q.2.1 ∧ q.2.1 < 1
    ∧ 0 ≤ q.2.2.1 ∧ q.2.2.1 < 1 ∧ 0 ≤ q.2.2.2 ∧ q.2.2.2 < 1

/-- C10. Every tick keeps targetPercentage and equipmentUtilization at most
100 (both are clamped by Math.min) and never decreases dailyTotal (its
increment Math.random() * 50 is non-negative), while tonsPerHour is not
clamped: over repeated ticks with admissible draws it exceeds any bound
above and falls below any bound. -/
theorem updateProductionMetrics_invariants :
    (∀ (st : ProductionMetrics) (r1 r2 r3 r4 : ℚ), 0 ≤ r2 →
        (updateProductionMetrics r1 r2 r3 r4 st).targetPercentage ≤ 100
        ∧ (updateProductionMetrics r1 r2 r3 r4 st).equipmentUtilization ≤ 100
        ∧ st.dailyTotal ≤ (updateProductionMetrics r1 r2 r3 r4 st).dailyTotal)
    ∧ (∀ (st : ProductionMetrics) (M : ℚ), ∃ rs : List (ℚ × ℚ × ℚ × ℚ),
        (∀ q ∈ rs, ValidDraw q) ∧ M < (runTicks rs st).tonsPerHour)
    ∧ (∀ (st : ProductionMetrics) (M : ℚ), ∃ rs : List (ℚ × ℚ × ℚ × ℚ),
        (∀ q ∈ rs, ValidDraw q) ∧ (runTicks rs st).tonsPerHour < M) := by
  refine ⟨?_, ?_, ?_⟩
  · intro st r1 r2 r3 r4 h2
    refine ⟨min_le_left _ _, min_le_left _ _, ?_⟩
    show st.dailyTotal ≤ st.dailyTotal + r2 * 50
    have : 0 ≤ r2 * 50 := mul_nonneg h2 (by norm_num)
    linarith
  · intro st M
    obtain ⟨n, hn⟩ := exists_nat_gt ((M - st.tonsPerHour) / 25)
    refine ⟨List.replicate n (3/4, 0, 0, 0), ?_, ?_⟩
    · intro q hq
      rw [List.eq_of_mem_replicate hq]
      exact ⟨by norm_num, by norm_num, by norm_num, by norm_num,
        by norm_num, by norm_num, by norm_num, by norm_num⟩
    · rw [runTicks_replicate_tons]
      have h1 : M - st.tonsPerHour < n * 25 := by
        have := (div_lt_iff₀ (by norm_num : (0:ℚ) < 25)).mp hn
        linarith
      have h2 : ((3:ℚ)/4 - 1/2) * 100 = 25 := by norm_num
      rw [h2]
      linarith
  · intro st M
    obtain ⟨n, hn⟩ := exists_nat_gt ((st.tonsPerHour - M) / 50)
    refine ⟨List.replicate n (0, 0, 0, 0), ?_, ?_⟩
    · intro q hq
      rw [List.eq_of_mem_replicate hq]
      exact ⟨by norm_num, by norm_num, by norm_num, by norm_num,
        by norm_num, by norm_num, by norm_num, by norm_num⟩
    · rw [runTicks_replicate_tons]
      have h1 : st.tonsPerHour - M < n * 50 := by
        have := (div_lt_iff₀ (by norm_num : (0:ℚ) < 50)).mp hn
        linarith
      have h2 : ((0:ℚ) - 1/2) * 100 = -50 := by norm_num
      rw [h2]
      linarith

/-- The hardcoded initial production metrics of App.tsx. -/
def initialProductionMetrics : ProductionMetrics :=
  { tonsPerHour := 2450, dailyTotal := 18200
    targetPercentage := 76, equipmentUtilization := 82 }

theorem updateProductionMetrics_invariants_witness :
    (updateProductionMetrics (1/4) (1/2) (3/4) (1/10) initialProductionMetrics).targetPercentage
        ≤ 100
    ∧ (updateProductionMetrics (1/4) (1/2) (3/4) (1/10)
        initialProductionMetrics).equipmentUtilization ≤ 100
    ∧ initialProductionMetrics.dailyTotal
        ≤ (updateProductionMetrics (1/4) (1/2) (3/4) (1/10) initialProductionMetrics).dailyTotal :=
  updateProductionMetrics_invariants.1 initialProductionMetrics (1/4) (1/2) (3/4) (1/10)
    (by norm_num)

end MineDispatch
